import Mathlib

/-!
Verification of the FNA updator pipeline (`.build/fna_updator.py`).

The Python pipeline is embedded shallowly: each method of `FnaUpdator` that the
claims touch becomes a Lean function over explicit models of its inputs
(HTTP responses, filesystem entries, extracted artifact trees).  Failure modes
of the Python runtime are made explicit: `sys.exit(code)` becomes
`PyError.exit code`, an uncaught `raise Exception(...)` becomes
`PyError.raisedException`, an uncaught `KeyError` from a dict subscript becomes
`PyError.keyError`, and the two failure modes of `shutil.move` become
`PyError.moveDestinationExists` and `PyError.moveSourceMissing`.
-/

/-- Ways a run of the Python pipeline can fail: a `sys.exit` call with its
code, an uncaught `KeyError` from a dict subscript, an uncaught `raise`, or an
error raised by `shutil.move`. -/
inductive PyError where
  | exit (code : Nat)
  | keyError
  | raisedException
  | moveDestinationExists
  | moveSourceMissing
  deriving DecidableEq

/-- State of a single filesystem path as `_manage_directory` observes it:
absent, a regular file, or a directory with a list of child entry names. -/
inductive FsEntry where
  | absent
  | file
  | dir (children : List String)
  deriving DecidableEq

/-- Model of `os.path.exists` on a single path. -/
def os_path_exists : FsEntry → Bool
  | FsEntry.absent => false
  | _ => true

/-- Model of `os.path.isfile` on a single path. -/
def os_path_isfile : FsEntry → Bool
  | FsEntry.file => true
  | _ => false

/-- Model of `FnaUpdator._manage_directory` acting on the state of the managed
path.  Mirrors the source control flow: if the path exists and is a file, raise;
if it exists and `delete_directory_if_exists`, remove it (via
`_remove_file_system_entry`, which `shutil.rmtree`s a directory); finally, if
`create_directory_if_not_exists` and the path does not exist, `os.makedirs` an
empty directory.  Returns the resulting path state together with the raised
exception, if any. -/
def manage_directory (delete_directory_if_exists create_directory_if_not_exists : Bool)
    (st : FsEntry) : FsEntry × Option PyError :=
  if os_path_exists st then
    if os_path_isfile st then (st, some PyError.raisedException)
    else
      let st1 := if delete_directory_if_exists then FsEntry.absent else st
      if create_directory_if_not_exists && !(os_path_exists st1) then (FsEntry.dir [], none)
      else (st1, none)
  else
    if create_directory_if_not_exists && !(os_path_exists st) then (FsEntry.dir [], none)
    else (st, none)

/-- JSON body of one response of the run-listing endpoint, as
`_get_latest_run_for_workflow` consumes it: an empty JSON object (falsy in
Python), a nonempty object missing the `workflow_runs` key (subscripting it
raises `KeyError`), or an object whose `workflow_runs` array is the given list
of run ids (most recent first, per the provider contract for
`per_page=1&status=completed&created=day`). -/
inductive JsonRuns where
  | emptyObject
  | missingKey
  | runs (ids : List Nat)
  deriving DecidableEq

/-- One transport-level response of the run-listing endpoint. -/
structure RunsResponse where
  status_code : Nat
  body : JsonRuns
  deriving DecidableEq

/-- One iteration of the day loop of `_get_latest_run_for_workflow`:
`data = response.json() if response.status_code == 200 else {}`, then
`if not data or not data["workflow_runs"]` treats the day as having no run
(`.ok none`), a nonempty object without the key raises `KeyError`, and
otherwise the loop returns `data["workflow_runs"][0]["id"]`. -/
def day_check (response : RunsResponse) : Except PyError (Option Nat) :=
  let data := if response.status_code = 200 then response.body else JsonRuns.emptyObject
  match data with
  | JsonRuns.emptyObject => Except.ok none
  | JsonRuns.missingKey => Except.error PyError.keyError
  | JsonRuns.runs [] => Except.ok none
  | JsonRuns.runs (r :: _) => Except.ok (some r)

/-- Model of `FnaUpdator._get_latest_run_for_workflow`.  The source builds
`dates_to_check = [today, yesterday]` and loops over it with `max_i = 1`:
a day with no run falls through to the next day (`continue`), and only at the
last day does `sys.exit(1)` fire.  `fetch` maps each queried date to the
transport response; exactly the two candidate dates are ever queried. -/
def get_latest_run_for_workflow (fetch : String → RunsResponse) (today yesterday : String) :
    Except PyError Nat :=
  match day_check (fetch today) with
  | Except.error e => Except.error e
  | Except.ok (some run_id) => Except.ok run_id
  | Except.ok none =>
    match day_check (fetch yesterday) with
    | Except.error e => Except.error e
    | Except.ok (some run_id) => Except.ok run_id
    | Except.ok none => Except.error (PyError.exit 1)

/-- Clock environment of `_get_latest_run_for_workflow`.  The source computes
`dates_to_check` from `datetime.now().date()`, the PROCESS-LOCAL date; the
current UTC date is carried alongside because the provider filters
`created=day` by UTC.  The two pairs coincide exactly when the machine's
timezone offset does not cross midnight at the time of the call. -/
structure Clock where
  localToday : String
  localYesterday : String
  utcToday : String
  utcYesterday : String

/-- Model of `_get_latest_run_for_workflow` together with its date
computation: `dates_to_check = [datetime.now().date().isoformat(),
(datetime.now().date() - timedelta(days=1)).isoformat()]` reads the
process-local clock, so the two candidate days queried are the local today
and the local yesterday, not the UTC ones. -/
def get_latest_run_with_clock (clock : Clock) (fetch : String → RunsResponse) :
    Except PyError Nat :=
  get_latest_run_for_workflow fetch clock.localToday clock.localYesterday

/-- A result is a fatal process termination (`sys.exit` with its code)
as opposed to a returned value or an uncaught exception. -/
def isFatalExit {α : Type} : Except PyError α → Bool
  | Except.error (PyError.exit _) => true
  | _ => false

/-- A JSON artifact object as `_get_artifacts_for_workflow_run` reads it:
the `name` and `archive_download_url` fields. -/
structure ArtifactObj where
  name : String
  archive_download_url : String
  deriving DecidableEq

/-- JSON body of one response of the artifact-listing endpoint, in the same
three shapes as `JsonRuns`: empty object, nonempty object missing the
`artifacts` key, or an object carrying the `artifacts` array. -/
inductive JsonArtifacts where
  | emptyObject
  | missingKey
  | artifacts (l : List ArtifactObj)
  deriving DecidableEq

/-- One transport-level response of the artifact-listing endpoint. -/
structure ArtifactsResponse where
  status_code : Nat
  body : JsonArtifacts
  deriving DecidableEq

/-- Model of `FnaUpdator._get_artifacts_for_workflow_run`:
`data = response.json() if response.status_code == 200 else {}`; an empty
`data` or an empty `data["artifacts"]` hits `sys.exit(1)`; a nonempty object
without the key raises `KeyError`; otherwise the comprehension returns the
(name, archive_download_url) pairs in the listing order. -/
def get_artifacts_for_workflow_run (response : ArtifactsResponse) :
    Except PyError (List (String × String)) :=
  let data := if response.status_code = 200 then response.body else JsonArtifacts.emptyObject
  match data with
  | JsonArtifacts.emptyObject => Except.error (PyError.exit 1)
  | JsonArtifacts.missingKey => Except.error PyError.keyError
  | JsonArtifacts.artifacts [] => Except.error (PyError.exit 1)
  | JsonArtifacts.artifacts l => Except.ok (l.map (fun a => (a.name, a.archive_download_url)))

/-- Git-level operations `_clone_or_update_repo` can perform, in the order the
source performs them. -/
inductive RepoAction where
  | cloneAttempt
  | pull
  | submoduleUpdate
  deriving DecidableEq

/-- Environment one call of `_clone_or_update_repo` runs in: the observed state
of the target directory and whether each git operation the call may attempt
(clone, pull, recursive submodule update) would succeed. -/
structure RepoEnv where
  dirExists : Bool
  dirIsFile : Bool
  hasGitMarker : Bool
  cloneSucceeds : Bool
  pullSucceeds : Bool
  submoduleUpdateSucceeds : Bool

/-- Model of `FnaUpdator._clone_or_update_repo`.  Step 1 classifies the target:
a file raises; a directory with a `.git` entry sets `update` and clears
`clone`; otherwise `clone` stays set.  Step 2 attempts the clone when `clone`
is set and, on any exception, sets `update` instead of aborting.  Step 3 pulls
when `update` is set; it has no try/except, so an exception there propagates
and step 4 is never reached.  Step 4 (`Repo(directory)` plus
`submodule.update(init=True, recursive=True)` over all submodules) runs on
both paths and also has no try/except: it is attempted and its exception, if
any, propagates.  Returns the trace of attempted git actions and the uncaught
exception, if any. -/
def clone_or_update_repo (env : RepoEnv) : List RepoAction × Option PyError :=
  if env.dirExists && env.dirIsFile then ([], some PyError.raisedException)
  else
    let update0 := env.dirExists && env.hasGitMarker
    let clone := !update0
    let trace1 := if clone then [RepoAction.cloneAttempt] else []
    let update1 := update0 || (clone && !env.cloneSucceeds)
    if update1 then
      if env.pullSucceeds then
        if env.submoduleUpdateSucceeds then
          (trace1 ++ [RepoAction.pull, RepoAction.submoduleUpdate], none)
        else
          (trace1 ++ [RepoAction.pull, RepoAction.submoduleUpdate],
            some PyError.raisedException)
      else (trace1 ++ [RepoAction.pull], some PyError.raisedException)
    else
      if env.submoduleUpdateSucceeds then
        (trace1 ++ [RepoAction.submoduleUpdate], none)
      else (trace1 ++ [RepoAction.submoduleUpdate], some PyError.raisedException)


/-- One transport-level response of an artifact archive download. -/
structure DownloadResponse where
  status_code : Nat
  content : String
  deriving DecidableEq

/-- Model of writing `open(path, 'wb')` then `write(content)` into the cache
root, viewed as an association list from entry names to contents: an existing
entry is overwritten, otherwise the file is appended. -/
def write_file (cache : List (String × String)) (name content : String) :
    List (String × String) :=
  if cache.any (fun e => e.1 == name) then
    cache.map (fun e => if e.1 == name then (name, content) else e)
  else cache ++ [(name, content)]

/-- Model of `FnaUpdator._download_artifact`: on a 200 response the raw bytes
are written to `cacheRoot/<name>.zip` and `True` is returned; on any other
status the function returns `False` with the cache untouched. -/
def download_artifact (response : DownloadResponse)
    (cache : List (String × String)) (artifact_name : String) :
    Bool × List (String × String) :=
  if response.status_code = 200 then
    (true, write_file cache (artifact_name ++ ".zip") response.content)
  else (false, cache)

mutual
/-- A directory in the filesystem: its file entry names and its subdirectories,
each subdirectory carried with its (base) name.  The subdirectory list is a
separate inductive (`DirEntries`) so that recursion over trees stays
structural. -/
inductive DirTree where
  | node (files : List String) (dirs : DirEntries)
/-- A listing of named subdirectories. -/
inductive DirEntries where
  | nil
  | cons (name : String) (tree : DirTree) (rest : DirEntries)
end

mutual
/-- Number of directories in a tree, root included.  Strictly exceeds the
depth of every path in the tree. -/
def DirTree.size : DirTree → Nat
  | DirTree.node _ ds => 1 + DirEntries.size ds
/-- Total number of directories in a listing of subdirectories. -/
def DirEntries.size : DirEntries → Nat
  | DirEntries.nil => 0
  | DirEntries.cons _ t rest => DirTree.size t + DirEntries.size rest
end

/-- View a subdirectory listing as a list of (name, subtree) pairs. -/
def DirEntries.toList : DirEntries → List (String × DirTree)
  | DirEntries.nil => []
  | DirEntries.cons n t rest => (n, t) :: rest.toList

/-- Build a subdirectory listing from a list of (name, subtree) pairs. -/
def DirEntries.ofList : List (String × DirTree) → DirEntries
  | [] => DirEntries.nil
  | (n, t) :: rest => DirEntries.cons n t (DirEntries.ofList rest)

/-- Follow a relative path (a list of directory names) down a tree, returning
the subtree it denotes, or `none` when some component is missing.  Models path
lookup under `os.walk` and `shutil.move` sources. -/
def DirTree.resolve : List String → DirTree → Option DirTree
  | [], t => some t
  | d :: rest, DirTree.node _ dirs =>
    match dirs.toList.find? (fun e => e.1 == d) with
    | some e => DirTree.resolve rest e.2
    | none => none

/-- Remove the subtree at a relative path (all entries of that name at the
final level), leaving the rest of the tree unchanged.  Models the effect on
the source side of `shutil.move`. -/
def DirTree.removePath : List String → DirTree → DirTree
  | [], t => t
  | [d], DirTree.node fs dirs =>
    DirTree.node fs (DirEntries.ofList (dirs.toList.filter (fun e => e.1 != d)))
  | d :: rest, DirTree.node fs dirs =>
    DirTree.node fs (DirEntries.ofList (dirs.toList.map (fun e =>
      if e.1 == d then (e.1, DirTree.removePath rest e.2) else e)))

/-- The immediate subdirectories of a tree's root, with their names. -/
def DirTree.topDirs : DirTree → List (String × DirTree)
  | DirTree.node _ dirs => dirs.toList

/-- State of the merge step for one artifact: the artifact's extracted tree
still sitting in the cache (subtrees disappear from it as they are moved) and
the accumulated immediate children of the install root. -/
structure MergeState where
  tree : DirTree
  installed : List (String × DirTree)

/-- Model of `shutil.move(os.path.join(root, directory), installRoot)` inside
the merge loop: resolve the source below the extracted tree (a missing source
raises), refuse when the install root already has a child of that base name
(`shutil.Error`), and otherwise detach the subtree from the cache tree and
append it to the install root's children under its base name. -/
def moveToInstall (st : MergeState) (root : List String) (d : String) :
    Except PyError MergeState :=
  match DirTree.resolve (root ++ [d]) st.tree with
  | none => Except.error PyError.moveSourceMissing
  | some src =>
    if st.installed.any (fun e => e.1 == d) then Except.error PyError.moveDestinationExists
    else Except.ok
      { tree := DirTree.removePath (root ++ [d]) st.tree
        installed := st.installed ++ [(d, src)] }

/-- Model of `for root, dirs, _ in os.walk(...)` together with the loop body of
the merge step of `_download_and_extract_artifact`.  `os.walk` is top-down: it
yields the directory names of the current root, the loop body then moves every
one of them into the install root, and the walk afterwards tries to descend
into each captured name; a directory that no longer exists on disk yields
nothing (`os.walk` passes the scandir error to its default `onerror=None`).
The fuel argument only bounds the recursion depth so the function is total:
the walk itself stops at missing paths, and any fuel exceeding the depth of
the tree gives the same result. -/
def mergeWalk : Nat → List String → MergeState → Except PyError MergeState
  | 0, _, st => Except.ok st
  | fuel + 1, path, st =>
    match DirTree.resolve path st.tree with
    | none => Except.ok st
    | some (DirTree.node _ dirs) =>
      match dirs.toList.foldlM (fun s e => moveToInstall s path e.1) st with
      | Except.error e => Except.error e
      | Except.ok st1 =>
        dirs.toList.foldlM (fun s e => mergeWalk fuel (path ++ [e.1]) s) st1

/-- The merge step of `_download_and_extract_artifact` for one artifact whose
extracted tree is `t`, run against the current install-root children: walk the
extracted tree from its root, moving encountered directories into the install
root.  `t.size + 1` strictly exceeds the depth of every path in `t` (and the
walk never revisits paths the moves have emptied), so the fuel never cuts the
walk short. -/
def DirTree.mergeInto (t : DirTree) (installed : List (String × DirTree)) :
    Except PyError MergeState :=
  mergeWalk (t.size + 1) [] (MergeState.mk t installed)

/-- The install-root child names produced by a merge, or `[]` when the merge
raised. -/
def installedNames : Except PyError MergeState → List String
  | Except.ok st => st.installed.map Prod.fst
  | Except.error _ => []

/-- One artifact as `_install_fna_libs_manager` processes it: its name,
whether its download and its extraction succeed, and the directory tree the
archive extracts to under `cacheRoot/<name>/`. -/
structure ArtifactRun where
  name : String
  downloadOk : Bool
  extractOk : Bool
  extractedTree : DirTree

/-- Model of `FnaUpdator._download_and_extract_artifact` for one artifact:
a failed download hits `sys.exit(1)`, a failed extraction hits `sys.exit(1)`,
and otherwise the merge walk runs over the extracted tree; its errors
propagate.  Returns the new install-root children (the leftover cache tree is
scratch space, deleted at the end of the run). -/
def download_and_extract_artifact (installed : List (String × DirTree))
    (a : ArtifactRun) : Except PyError (List (String × DirTree)) :=
  if !a.downloadOk then Except.error (PyError.exit 1)
  else if !a.extractOk then Except.error (PyError.exit 1)
  else
    match DirTree.mergeInto a.extractedTree installed with
    | Except.error e => Except.error e
    | Except.ok st => Except.ok st.installed

/-- Durable state after a run of `_install_fna_libs_manager`: the install
root's immediate children and whether the cache root still exists. -/
structure FinalState where
  installed : List (String × DirTree)
  cacheExists : Bool

/-- Model of `FnaUpdator._install_fna_libs_manager` from the point where the
artifact list is known: the cache root and the install root have just been
wiped and recreated empty by `_manage_directory` (both with delete and create
set), each artifact is downloaded, extracted and merged in listing order, and
finally `_remove_file_system_entry` deletes the cache root, so on the success
path the cache root does not exist. -/
def install_fna_libs_manager (artifacts : List ArtifactRun) :
    Except PyError FinalState :=
  match artifacts.foldlM download_and_extract_artifact [] with
  | Except.error e => Except.error e
  | Except.ok installed => Except.ok (FinalState.mk installed false)

/-- Helper: full evaluation of `_get_latest_run_for_workflow` on two
well-formed responses (bodies that carry the `workflow_runs` key). -/
theorem get_latest_run_eval (fetch : String → RunsResponse) (today yesterday : String)
    (l0 l1 : List Nat)
    (h0 : (fetch today).body = JsonRuns.runs l0)
    (h1 : (fetch yesterday).body = JsonRuns.runs l1) :
    get_latest_run_for_workflow fetch today yesterday =
      if (fetch today).status_code = 200 ∧ l0 ≠ [] then Except.ok l0.headI
      else if (fetch yesterday).status_code = 200 ∧ l1 ≠ [] then Except.ok l1.headI
      else Except.error (PyError.exit 1) := by
  by_cases hs0 : (fetch today).status_code = 200 <;>
    by_cases hs1 : (fetch yesterday).status_code = 200 <;>
      cases l0 <;> cases l1 <;>
        simp [get_latest_run_for_workflow, day_check, h0, h1, hs0, hs1]

/-- Claim C8: on a path that exists as a regular file, `_manage_directory`
raises the directory-conflict exception for every combination of the two
flags, and neither deletes nor creates anything: the path state is returned
unchanged. -/
theorem manage_directory_file_conflict
    (delete_directory_if_exists create_directory_if_not_exists : Bool) :
    manage_directory delete_directory_if_exists create_directory_if_not_exists FsEntry.file
      = (FsEntry.file, some PyError.raisedException) := by
  cases delete_directory_if_exists <;> cases create_directory_if_not_exists <;> rfl

/-- Claim C9: `_manage_directory` is idempotent: a second call with the same
flags on the state produced by the first call returns exactly the first call's
result (so it changes nothing); and wipe-then-create followed by
create-if-missing leaves the path an existing empty directory for every prior
state other than a regular file. -/
theorem manage_directory_idempotent :
    (∀ (d c : Bool) (st : FsEntry),
      manage_directory d c (manage_directory d c st).1 = manage_directory d c st) ∧
    (∀ st : FsEntry, st ≠ FsEntry.file →
      manage_directory false true (manage_directory true true st).1
        = (FsEntry.dir [], none)) := by
  constructor
  · intro d c st
    cases d <;> cases c <;> cases st <;>
      simp [manage_directory, os_path_exists, os_path_isfile]
  · intro st h
    cases st with
    | absent => rfl
    | file => exact absurd rfl h
    | dir l => rfl

/-- Claim C9 witness: idempotence instantiated at a nonempty directory. -/
theorem manage_directory_idempotent_witness :
    manage_directory false true (manage_directory true true (FsEntry.dir ["x"])).1
      = (FsEntry.dir [], none) :=
  manage_directory_idempotent.2 (FsEntry.dir ["x"]) (by decide)

/-- Claim C3 counterexample: the claim pins the first candidate day to the
current UTC date, but the source computes the dates from `datetime.now()`, the
process-local clock.  Here the machine sits in a timezone behind UTC shortly
after UTC midnight: the local date is 2026-10-11 while the UTC date is
2026-10-12, and the provider (whose `created` filter is UTC-based) holds a
completed run with id 99 for the UTC date.  The claim mandates returning 99;
the code queries 2026-10-11 and 2026-10-10, finds no run, and exits with code
1.  Had the window started at the current UTC date, the run would have been
returned (second conjunct). -/
theorem get_latest_run_local_date_counterexample :
    get_latest_run_with_clock
        (Clock.mk "2026-10-11" "2026-10-10" "2026-10-12" "2026-10-11")
        (fun d => if d = "2026-10-12" then RunsResponse.mk 200 (JsonRuns.runs [99])
                  else RunsResponse.mk 200 (JsonRuns.runs []))
      = Except.error (PyError.exit 1) ∧
    get_latest_run_for_workflow
        (fun d => if d = "2026-10-12" then RunsResponse.mk 200 (JsonRuns.runs [99])
                  else RunsResponse.mk 200 (JsonRuns.runs []))
        "2026-10-12" "2026-10-11" = Except.ok 99 := by
  constructor <;> rfl

/-- Claim C3 amended: `_get_latest_run_for_workflow` consults exactly two
candidate days starting with the current PROCESS-LOCAL date (`datetime.now()`),
not the current UTC date: it returns the most recent completed run id of the
local today when that query has a success status and a nonempty
`workflow_runs` array, otherwise the local yesterday's under the same
condition, and otherwise terminates the process with exit code 1.  When the
local date differs from the UTC date, the queried window shifts accordingly
and a run created on the current UTC date can be missed. -/
theorem get_latest_run_local_two_day_fallback (clock : Clock)
    (fetch : String → RunsResponse) (l0 l1 : List Nat)
    (h0 : (fetch clock.localToday).body = JsonRuns.runs l0)
    (h1 : (fetch clock.localYesterday).body = JsonRuns.runs l1) :
    get_latest_run_with_clock clock fetch =
      if (fetch clock.localToday).status_code = 200 ∧ l0 ≠ [] then Except.ok l0.headI
      else if (fetch clock.localYesterday).status_code = 200 ∧ l1 ≠ [] then
        Except.ok l1.headI
      else Except.error (PyError.exit 1) := by
  unfold get_latest_run_with_clock
  exact get_latest_run_eval fetch clock.localToday clock.localYesterday l0 l1 h0 h1

/-- Claim C3 amended witness: the local today has a completed run with id 7,
so it is returned. -/
theorem get_latest_run_local_two_day_fallback_witness :
    get_latest_run_with_clock
        (Clock.mk "2026-10-12" "2026-10-11" "2026-10-12" "2026-10-11")
        (fun _ => RunsResponse.mk 200 (JsonRuns.runs [7])) = Except.ok 7 := by
  have h := get_latest_run_local_two_day_fallback
    (Clock.mk "2026-10-12" "2026-10-11" "2026-10-12" "2026-10-11")
    (fun _ => RunsResponse.mk 200 (JsonRuns.runs [7])) [7] [7] rfl rfl
  simpa using h

/-- Claim C4 counterexample: today's query answers with transport status 500,
yet the pipeline does not terminate: it falls through to yesterday and returns
yesterday's run id 42.  A non-success status is therefore not fatal on the
first candidate day, refuting the claim as stated. -/
theorem get_latest_run_nonsuccess_counterexample :
    get_latest_run_for_workflow
        (fun d => if d = "2026-10-12" then RunsResponse.mk 500 (JsonRuns.runs [])
                  else RunsResponse.mk 200 (JsonRuns.runs [42]))
        "2026-10-12" "2026-10-11" = Except.ok 42 ∧
      isFatalExit (get_latest_run_for_workflow
        (fun d => if d = "2026-10-12" then RunsResponse.mk 500 (JsonRuns.runs [])
                  else RunsResponse.mk 200 (JsonRuns.runs [42]))
        "2026-10-12" "2026-10-11") = false := by
  constructor <;> rfl

/-- Claim C4 amended: a non-success transport status makes a day count as
having no run; the operation is fatal (nonzero exit) exactly when neither
candidate day has a success response with a nonempty `workflow_runs` array,
so a non-success response is fatal only at the end of the two-day window. -/
theorem get_latest_run_fatal_iff_no_day_yields (fetch : String → RunsResponse)
    (today yesterday : String) (l0 l1 : List Nat)
    (h0 : (fetch today).body = JsonRuns.runs l0)
    (h1 : (fetch yesterday).body = JsonRuns.runs l1) :
    isFatalExit (get_latest_run_for_workflow fetch today yesterday) = true ↔
      ¬((fetch today).status_code = 200 ∧ l0 ≠ []) ∧
        ¬((fetch yesterday).status_code = 200 ∧ l1 ≠ []) := by
  rw [get_latest_run_eval fetch today yesterday l0 l1 h0 h1]
  by_cases hc0 : (fetch today).status_code = 200 ∧ l0 ≠ [] <;>
    by_cases hc1 : (fetch yesterday).status_code = 200 ∧ l1 ≠ [] <;>
      simp [hc0, hc1, isFatalExit]

/-- Claim C4 amended witness: both days fail (one with status 500, one with an
empty run list), and the pipeline exits fatally. -/
theorem get_latest_run_fatal_iff_no_day_yields_witness :
    isFatalExit (get_latest_run_for_workflow
        (fun d => if d = "2026-10-12" then RunsResponse.mk 500 (JsonRuns.runs [3])
                  else RunsResponse.mk 200 (JsonRuns.runs []))
        "2026-10-12" "2026-10-11") = true := by
  have h := get_latest_run_fatal_iff_no_day_yields
    (fun d => if d = "2026-10-12" then RunsResponse.mk 500 (JsonRuns.runs [3])
              else RunsResponse.mk 200 (JsonRuns.runs []))
    "2026-10-12" "2026-10-11" [3] [] rfl rfl
  rw [h]
  constructor
  · intro hc
    exact absurd hc.1 (by decide)
  · intro hc
    exact hc.2 rfl

/-- Claim C5 counterexample: today's response has success status 200 and a
nonempty JSON object in which the `workflow_runs` key is missing.  The claim
says such a day is treated as having no run and the code proceeds to the
fallback day; instead `data["workflow_runs"]` raises an unhandled `KeyError`,
even though yesterday holds a completed run with id 42. -/
theorem get_latest_run_missing_key_counterexample :
    get_latest_run_for_workflow
        (fun d => if d = "2026-10-12" then RunsResponse.mk 200 JsonRuns.missingKey
                  else RunsResponse.mk 200 (JsonRuns.runs [42]))
        "2026-10-12" "2026-10-11" = Except.error PyError.keyError := by
  rfl

/-- Claim C5 amended: a success response whose JSON body is the empty object,
or whose `workflow_runs` array is present but empty, is treated as a day with
no run: the loop proceeds to the fallback day (or to the fatal exit when it is
the last day).  A nonempty body missing the key instead raises an unhandled
`KeyError` (see the counterexample). -/
theorem get_latest_run_empty_body_is_no_run (fetch : String → RunsResponse)
    (today yesterday : String)
    (h200 : (fetch today).status_code = 200)
    (hbody : (fetch today).body = JsonRuns.emptyObject ∨
      (fetch today).body = JsonRuns.runs []) :
    day_check (fetch today) = Except.ok none ∧
    get_latest_run_for_workflow fetch today yesterday =
      (match day_check (fetch yesterday) with
       | Except.error e => Except.error e
       | Except.ok (some run_id) => Except.ok run_id
       | Except.ok none => Except.error (PyError.exit 1)) := by
  have hday : day_check (fetch today) = Except.ok none := by
    rcases hbody with hb | hb <;> simp [day_check, h200, hb]
  refine ⟨hday, ?_⟩
  rw [get_latest_run_for_workflow, hday]

/-- Claim C5 amended witness: today answers 200 with an empty `workflow_runs`
array; the loop falls through and returns yesterday's run id 42. -/
theorem get_latest_run_empty_body_is_no_run_witness :
    day_check (RunsResponse.mk 200 (JsonRuns.runs [])) = Except.ok none ∧
    get_latest_run_for_workflow
        (fun d => if d = "2026-10-12" then RunsResponse.mk 200 (JsonRuns.runs [])
                  else RunsResponse.mk 200 (JsonRuns.runs [42]))
        "2026-10-12" "2026-10-11" = Except.ok 42 := by
  have h := get_latest_run_empty_body_is_no_run
    (fun d => if d = "2026-10-12" then RunsResponse.mk 200 (JsonRuns.runs [])
              else RunsResponse.mk 200 (JsonRuns.runs [42]))
    "2026-10-12" "2026-10-11" (by rfl) (Or.inr (by rfl))
  simpa using h

/-- Claim C6: `_get_artifacts_for_workflow_run`, on a response whose body
carries the `artifacts` array, exits the process with code 1 when the
transport status is not a success or the array is empty, and otherwise
returns the (name, archive_download_url) pairs in the provider's listing
order. -/
theorem get_artifacts_spec (response : ArtifactsResponse) (l : List ArtifactObj)
    (h : response.body = JsonArtifacts.artifacts l) :
    get_artifacts_for_workflow_run response =
      if response.status_code = 200 ∧ l ≠ [] then
        Except.ok (l.map (fun a => (a.name, a.archive_download_url)))
      else Except.error (PyError.exit 1) := by
  by_cases hs : response.status_code = 200 <;> cases l <;>
    simp [get_artifacts_for_workflow_run, h, hs]

/-- Claim C6 witness: a success response listing two artifacts returns both
pairs in order. -/
theorem get_artifacts_spec_witness :
    get_artifacts_for_workflow_run
        (ArtifactsResponse.mk 200 (JsonArtifacts.artifacts
          [ArtifactObj.mk "win-x64" "u1", ArtifactObj.mk "linux-x64" "u2"]))
      = Except.ok [("win-x64", "u1"), ("linux-x64", "u2")] := by
  have h := get_artifacts_spec
    (ArtifactsResponse.mk 200 (JsonArtifacts.artifacts
      [ArtifactObj.mk "win-x64" "u1", ArtifactObj.mk "linux-x64" "u2"]))
    [ArtifactObj.mk "win-x64" "u1", ArtifactObj.mk "linux-x64" "u2"] rfl
  simpa using h

/-- Claim C7: whenever `_clone_or_update_repo` attempts the clone step and the
clone fails, the call does not abort there: it proceeds to the update step
(the pull is in the attempted trace), and the call as a whole raises no
exception exactly when both the pull and the subsequent recursive submodule
update succeed. -/
theorem clone_failure_falls_back_to_update (env : RepoEnv)
    (hnf : ¬(env.dirExists = true ∧ env.dirIsFile = true))
    (hclone : ¬(env.dirExists = true ∧ env.hasGitMarker = true))
    (hfail : env.cloneSucceeds = false) :
    RepoAction.pull ∈ (clone_or_update_repo env).1 ∧
      ((clone_or_update_repo env).2 = none ↔
        (env.pullSucceeds = true ∧ env.submoduleUpdateSucceeds = true)) := by
  obtain ⟨de, df, gm, cs, ps, ss⟩ := env
  simp only at hnf hclone hfail
  cases de <;> cases df <;> cases gm <;> cases ps <;> cases ss <;>
    simp_all [clone_or_update_repo]

/-- Claim C7 witness: a plain pre-existing directory without a `.git` marker,
a failing clone, a succeeding pull and a succeeding submodule update: the
trace contains the pull and no exception is raised. -/
theorem clone_failure_falls_back_to_update_witness :
    RepoAction.pull
        ∈ (clone_or_update_repo (RepoEnv.mk true false false false true true)).1 ∧
      ((clone_or_update_repo (RepoEnv.mk true false false false true true)).2 = none ↔
        ((RepoEnv.mk true false false false true true).pullSucceeds = true ∧
          (RepoEnv.mk true false false false true true).submoduleUpdateSucceeds = true)) :=
  clone_failure_falls_back_to_update (RepoEnv.mk true false false false true true)
    (by simp) (by simp) rfl

/-- Claim C10: a download whose response status is not 200 returns failure and
leaves the cache root exactly as it was: the `<name>.zip` entry is written
only on a success response. -/
theorem download_artifact_failure_leaves_cache (response : DownloadResponse)
    (cache : List (String × String)) (artifact_name : String)
    (h : response.status_code ≠ 200) :
    download_artifact response cache artifact_name = (false, cache) := by
  simp [download_artifact, h]

/-- Claim C10 witness: a 404 download of artifact `win-x64` against a cache
holding one unrelated entry fails and leaves that cache unchanged. -/
theorem download_artifact_failure_leaves_cache_witness :
    download_artifact (DownloadResponse.mk 404 "body") [("other.zip", "bytes")] "win-x64"
      = (false, [("other.zip", "bytes")]) :=
  download_artifact_failure_leaves_cache (DownloadResponse.mk 404 "body")
    [("other.zip", "bytes")] "win-x64" (by decide)

/-- Helper: the list view of a listing built from a list is that list. -/
theorem DirEntries.toList_ofList (l : List (String × DirTree)) :
    (DirEntries.ofList l).toList = l := by
  induction l with
  | nil => rfl
  | cons e rest ih =>
    cases e
    simp [DirEntries.ofList, DirEntries.toList, ih]

/-- Helper: rebuilding a listing from its list view gives it back. -/
theorem DirEntries.ofList_toList : (ds : DirEntries) → DirEntries.ofList ds.toList = ds
  | DirEntries.nil => rfl
  | DirEntries.cons n t rest => by
    simp [DirEntries.toList, DirEntries.ofList, DirEntries.ofList_toList rest]

/-- Helper: bind of a success value in the `Except` monad. -/
theorem except_ok_bind {α β : Type} (a : α) (f : α → Except PyError β) :
    (Except.ok a >>= f) = f a := rfl

/-- Helper: bind of an error in the `Except` monad. -/
theorem except_error_bind {α β : Type} (e : PyError) (f : α → Except PyError β) :
    ((Except.error e : Except PyError α) >>= f) = Except.error e := rfl

/-- Helper: pure in the `Except` monad is `Except.ok`. -/
theorem except_pure {α : Type} (a : α) : (pure a : Except PyError α) = Except.ok a := rfl

/-- Helper: inversion of the per-level move loop of the merge step.  Starting
from a root whose subdirectory listing is the pending list minus the names on
the block list, a successful loop empties the root listing and appends the
pending entries to the install-root children in order. -/
theorem moves_fold_ok (rem : List (String × DirTree)) :
    ∀ (bad : List String) (fs : List String) (inst : List (String × DirTree))
      (st : MergeState),
      List.foldlM (fun s e => moveToInstall s [] e.1)
          (MergeState.mk (DirTree.node fs
            (DirEntries.ofList (rem.filter (fun x => !decide (x.1 ∈ bad))))) inst) rem
        = Except.ok st →
      st = MergeState.mk (DirTree.node fs DirEntries.nil) (inst ++ rem) := by
  induction rem with
  | nil =>
    intro bad fs inst st h
    simp [List.foldlM, except_pure, DirEntries.ofList] at h
    simp [h.symm]
  | cons a rem ih =>
    intro bad fs inst st h
    simp only [List.foldlM] at h
    by_cases hbad : a.1 ∈ bad
    · exfalso
      rw [List.filter_cons_of_neg (by simp [hbad])] at h
      have hfind : List.find? (fun x => x.1 == a.1)
          (rem.filter (fun x => !decide (x.1 ∈ bad))) = none := by
        rw [List.find?_eq_none]
        intro x hx
        have hxb : x.1 ∉ bad := by simpa using (List.mem_filter.mp hx).2
        simp only [beq_iff_eq]
        intro hEq
        exact hxb (hEq ▸ hbad)
      rw [show moveToInstall (MergeState.mk (DirTree.node fs
            (DirEntries.ofList (rem.filter (fun x => !decide (x.1 ∈ bad))))) inst) [] a.1
          = Except.error PyError.moveSourceMissing by
        simp [moveToInstall, DirTree.resolve, DirEntries.toList_ofList, hfind]] at h
      rw [except_error_bind] at h
      simp at h
    · rw [List.filter_cons_of_pos (by simp [hbad])] at h
      have hres : DirTree.resolve [a.1] (DirTree.node fs
          (DirEntries.ofList (a :: rem.filter (fun x => !decide (x.1 ∈ bad)))))
            = some a.2 := by
        simp [DirTree.resolve, DirEntries.toList_ofList]
      by_cases hconf : (inst.any (fun y => y.1 == a.1)) = true
      · exfalso
        rw [show moveToInstall (MergeState.mk (DirTree.node fs (DirEntries.ofList
              (a :: rem.filter (fun x => !decide (x.1 ∈ bad))))) inst) [] a.1
            = Except.error PyError.moveDestinationExists by
          simp [moveToInstall, hres, hconf]] at h
        rw [except_error_bind] at h
        simp at h
      · rw [show moveToInstall (MergeState.mk (DirTree.node fs (DirEntries.ofList
              (a :: rem.filter (fun x => !decide (x.1 ∈ bad))))) inst) [] a.1
            = Except.ok (MergeState.mk (DirTree.node fs (DirEntries.ofList
                (rem.filter (fun x => !decide (x.1 ∈ (a.1 :: bad))))))
                (inst ++ [(a.1, a.2)])) by
          simp [moveToInstall, hres, hconf, DirTree.removePath,
            DirEntries.toList_ofList]
          exact congrArg DirEntries.ofList (List.filter_congr (fun x _ => by
            by_cases hxe : x.1 = a.1 <;> by_cases hxb : x.1 ∈ bad <;>
              simp [hxe, hxb]))] at h
        rw [except_ok_bind] at h
        have := ih (a.1 :: bad) fs (inst ++ [(a.1, a.2)]) st h
        simpa [List.append_assoc] using this

/-- Helper: after a level's moves have emptied the root listing, the descent
part of the walk finds nothing and leaves the state unchanged. -/
theorem descend_noop (l : List (String × DirTree)) (k : Nat) (fs : List String)
    (inst : List (String × DirTree)) :
    List.foldlM (fun s e => mergeWalk k ([] ++ [e.1]) s)
        (MergeState.mk (DirTree.node fs DirEntries.nil) inst) l
      = Except.ok (MergeState.mk (DirTree.node fs DirEntries.nil) inst) := by
  induction l with
  | nil => rfl
  | cons a rest ih =>
    have hw : mergeWalk k ([] ++ [a.1])
        (MergeState.mk (DirTree.node fs DirEntries.nil) inst)
        = Except.ok (MergeState.mk (DirTree.node fs DirEntries.nil) inst) := by
      cases k with
      | zero => rfl
      | succ k => simp [mergeWalk, DirTree.resolve, DirEntries.toList]
    simp only [List.foldlM, hw, except_ok_bind]
    exact ih

/-- Helper: a tree's own subdirectory listing is itself filtered by the empty
block list, rebuilt as a listing. -/
theorem ofList_filter_empty (ds : DirEntries) :
    DirEntries.ofList (ds.toList.filter (fun x => !decide (x.1 ∈ ([] : List String))))
      = ds := by
  rw [List.filter_eq_self.mpr (by simp)]
  exact DirEntries.ofList_toList ds

/-- Helper: inversion of the whole merge walk for one artifact: a successful
merge empties the extracted tree's root listing and appends exactly its
top-level subdirectories, in order, to the install-root children. -/
theorem mergeInto_ok (fs : List String) (ds : DirEntries)
    (inst : List (String × DirTree)) (st : MergeState)
    (h : DirTree.mergeInto (DirTree.node fs ds) inst = Except.ok st) :
    st = MergeState.mk (DirTree.node fs DirEntries.nil) (inst ++ ds.toList) := by
  unfold DirTree.mergeInto at h
  simp only [mergeWalk, DirTree.resolve] at h
  cases hm : List.foldlM (fun s e => moveToInstall s [] e.1)
      (MergeState.mk (DirTree.node fs ds) inst) ds.toList with
  | error e => simp [hm] at h
  | ok st1 =>
    simp only [hm] at h
    have hst1 : st1 = MergeState.mk (DirTree.node fs DirEntries.nil)
        (inst ++ ds.toList) := by
      apply moves_fold_ok ds.toList [] fs inst st1
      rw [ofList_filter_empty]
      exact hm
    rw [hst1, descend_noop] at h
    exact (Except.ok.inj h).symm

/-- Helper: forward evaluation of the per-level move loop: with pairwise
distinct pending names, none on the block list and none already installed,
the loop succeeds, empties the root listing and appends the pending entries
to the install-root children in order. -/
theorem moves_fold_eval (rem : List (String × DirTree)) :
    ∀ (bad : List String) (fs : List String) (inst : List (String × DirTree)),
      (rem.map Prod.fst).Nodup →
      (∀ x ∈ rem, x.1 ∉ bad) →
      (∀ x ∈ rem, ∀ y ∈ inst, y.1 ≠ x.1) →
      List.foldlM (fun s e => moveToInstall s [] e.1)
          (MergeState.mk (DirTree.node fs
            (DirEntries.ofList (rem.filter (fun x => !decide (x.1 ∈ bad))))) inst) rem
        = Except.ok (MergeState.mk (DirTree.node fs DirEntries.nil) (inst ++ rem)) := by
  induction rem with
  | nil =>
    intro bad fs inst _ _ _
    simp [List.foldlM, except_pure, DirEntries.ofList]
  | cons a rem ih =>
    intro bad fs inst hnd hbad hdisj
    have hab : a.1 ∉ bad := hbad a (by simp)
    have hnotin : a.1 ∉ rem.map Prod.fst := by
      simp only [List.map_cons, List.nodup_cons] at hnd
      exact hnd.1
    have hnd2 : (rem.map Prod.fst).Nodup := by
      simp only [List.map_cons, List.nodup_cons] at hnd
      exact hnd.2
    simp only [List.foldlM]
    rw [List.filter_cons_of_pos (by simp [hab])]
    have hres : DirTree.resolve [a.1] (DirTree.node fs
        (DirEntries.ofList (a :: rem.filter (fun x => !decide (x.1 ∈ bad)))))
          = some a.2 := by
      simp [DirTree.resolve, DirEntries.toList_ofList]
    have hconf : ¬(inst.any (fun y => y.1 == a.1)) = true := by
      intro hc
      rw [List.any_eq_true] at hc
      obtain ⟨y, hy, hyeq⟩ := hc
      exact hdisj a (by simp) y hy (by simpa using hyeq)
    rw [show moveToInstall (MergeState.mk (DirTree.node fs (DirEntries.ofList
          (a :: rem.filter (fun x => !decide (x.1 ∈ bad))))) inst) [] a.1
        = Except.ok (MergeState.mk (DirTree.node fs (DirEntries.ofList
            (rem.filter (fun x => !decide (x.1 ∈ (a.1 :: bad))))))
            (inst ++ [(a.1, a.2)])) by
      simp [moveToInstall, hres, hconf, DirTree.removePath,
        DirEntries.toList_ofList]
      exact congrArg DirEntries.ofList (List.filter_congr (fun x _ => by
        by_cases hxe : x.1 = a.1 <;> by_cases hxb : x.1 ∈ bad <;>
          simp [hxe, hxb]))]
    rw [except_ok_bind]
    have hb : ∀ x ∈ rem, x.1 ∉ (a.1 :: bad) := by
      intro x hx
      simp only [List.mem_cons, not_or]
      constructor
      · intro hEq
        exact hnotin (by rw [← hEq]; exact List.mem_map_of_mem Prod.fst hx)
      · exact hbad x (List.mem_cons_of_mem a hx)
    have hd : ∀ x ∈ rem, ∀ y ∈ inst ++ [(a.1, a.2)], y.1 ≠ x.1 := by
      intro x hx y hy
      rcases List.mem_append.mp hy with hy1 | hy2
      · exact hdisj x (List.mem_cons_of_mem a hx) y hy1
      · have hya : y = (a.1, a.2) := by simpa using hy2
        rw [hya]
        intro hEq
        exact hnotin (by rw [hEq]; exact List.mem_map_of_mem Prod.fst hx)
    rw [ih (a.1 :: bad) fs (inst ++ [(a.1, a.2)]) hnd2 hb hd]
    simp [List.append_assoc]

/-- Helper: a successful per-artifact step appends exactly the artifact's
top-level extracted subdirectories to the install-root children. -/
theorem download_and_extract_ok (inst : List (String × DirTree)) (a : ArtifactRun)
    (res : List (String × DirTree))
    (h : download_and_extract_artifact inst a = Except.ok res) :
    res = inst ++ a.extractedTree.topDirs := by
  unfold download_and_extract_artifact at h
  cases hdl : a.downloadOk with
  | false => rw [hdl] at h; simp at h
  | true =>
    cases hex : a.extractOk with
    | false => rw [hdl, hex] at h; simp at h
    | true =>
      rw [hdl, hex] at h
      simp only [Bool.not_true, Bool.false_eq_true, if_false] at h
      cases ht : a.extractedTree with
      | node fs ds =>
        rw [ht] at h
        cases hm : DirTree.mergeInto (DirTree.node fs ds) inst with
        | error e => rw [hm] at h; simp at h
        | ok st =>
          simp only [hm] at h
          have hst := mergeInto_ok fs ds inst st hm
          have hres2 : st.installed = res := Except.ok.inj h
          rw [hst] at hres2
          rw [← hres2]
          simp [DirTree.topDirs]

/-- Helper: a successful fold over the artifact list appends, in listing
order, every artifact's top-level extracted subdirectories. -/
theorem install_fold_ok (arts : List ArtifactRun) :
    ∀ (inst res : List (String × DirTree)),
      List.foldlM download_and_extract_artifact inst arts = Except.ok res →
      res = inst ++ (arts.map (fun a => a.extractedTree.topDirs)).flatten := by
  induction arts with
  | nil =>
    intro inst res h
    simp [List.foldlM, except_pure] at h
    simp [← h]
  | cons a arts ih =>
    intro inst res h
    simp only [List.foldlM] at h
    cases hd : download_and_extract_artifact inst a with
    | error e => rw [hd, except_error_bind] at h; simp at h
    | ok s =>
      rw [hd, except_ok_bind] at h
      have hs := download_and_extract_ok inst a s hd
      have hrec := ih s res h
      rw [hrec, hs]
      simp [List.append_assoc]

/-- Claim C1: every successful run of the artifact-install manager ends with
the install root's immediate children being exactly the concatenation, in
listing order, of each artifact's top-level extracted subdirectories, and
with the cache root no longer existing. -/
theorem install_all_invariant (artifacts : List ArtifactRun) (st : FinalState)
    (h : install_fna_libs_manager artifacts = Except.ok st) :
    st.installed = (artifacts.map (fun a => a.extractedTree.topDirs)).flatten ∧
      st.cacheExists = false := by
  unfold install_fna_libs_manager at h
  cases hf : List.foldlM download_and_extract_artifact [] artifacts with
  | error e => rw [hf] at h; simp at h
  | ok installed =>
    simp only [hf] at h
    have hfold := install_fold_ok artifacts [] installed hf
    rw [← Except.ok.inj h]
    simp only [List.nil_append] at hfold
    simp [hfold]

/-- Claim C1 witness: one artifact whose extracted tree holds a single
top-level directory named lib; the run succeeds, the install root's children
are exactly that directory and the cache root is gone. -/
theorem install_all_invariant_witness :
    (FinalState.mk [("lib", DirTree.node [] DirEntries.nil)] false).installed
        = ([ArtifactRun.mk "win-x64" true true (DirTree.node []
            (DirEntries.cons "lib" (DirTree.node [] DirEntries.nil) DirEntries.nil))].map
              (fun a => a.extractedTree.topDirs)).flatten ∧
      (FinalState.mk [("lib", DirTree.node [] DirEntries.nil)] false).cacheExists = false :=
  install_all_invariant
    [ArtifactRun.mk "win-x64" true true (DirTree.node []
      (DirEntries.cons "lib" (DirTree.node [] DirEntries.nil) DirEntries.nil))]
    (FinalState.mk [("lib", DirTree.node [] DirEntries.nil)] false) rfl

/-- Claim C2 counterexample: an extracted tree with a top-level directory a
that itself contains a directory b.  The claim predicts that b, being
encountered in the recursive walk, is moved into the install root under its
own base name; instead the merge leaves the install root with a as its only
immediate child (b only travels inside a), because moving a makes the walk
unable to descend into it. -/
theorem merge_walk_nested_counterexample :
    installedNames (DirTree.mergeInto
        (DirTree.node [] (DirEntries.cons "a"
          (DirTree.node [] (DirEntries.cons "b" (DirTree.node [] DirEntries.nil)
            DirEntries.nil))
          DirEntries.nil)) [])
      = ["a"] ∧
    "b" ∉ installedNames (DirTree.mergeInto
        (DirTree.node [] (DirEntries.cons "a"
          (DirTree.node [] (DirEntries.cons "b" (DirTree.node [] DirEntries.nil)
            DirEntries.nil))
          DirEntries.nil)) []) :=
  ⟨rfl, by decide⟩

/-- Claim C2 amended: the merge step moves exactly the top-level directories
of the extracted tree into the install root, each under its own base name and
in listing order; directories deeper in the tree move only as part of their
top-level ancestor, because each top-level move empties the walk's pending
paths.  Stated for top-level names that are pairwise distinct and free in the
install root, which is what a successful merge requires. -/
theorem merge_moves_only_top_level (fs : List String) (ds : DirEntries)
    (inst : List (String × DirTree))
    (hnd : (ds.toList.map Prod.fst).Nodup)
    (hdisj : ∀ x ∈ ds.toList, ∀ y ∈ inst, y.1 ≠ x.1) :
    DirTree.mergeInto (DirTree.node fs ds) inst
      = Except.ok (MergeState.mk (DirTree.node fs DirEntries.nil)
          (inst ++ ds.toList)) := by
  unfold DirTree.mergeInto
  simp only [mergeWalk, DirTree.resolve]
  rw [show (MergeState.mk (DirTree.node fs ds) inst)
      = MergeState.mk (DirTree.node fs (DirEntries.ofList
          (ds.toList.filter (fun x => !decide (x.1 ∈ ([] : List String)))))) inst by
    rw [ofList_filter_empty]]
  rw [moves_fold_eval ds.toList [] fs inst hnd (by simp) hdisj]
  exact descend_noop ds.toList ((DirTree.node fs ds).size) fs (inst ++ ds.toList)

/-- Claim C2 amended witness: a single top-level directory lib merged into an
install root already holding an unrelated directory. -/
theorem merge_moves_only_top_level_witness :
    DirTree.mergeInto (DirTree.node []
        (DirEntries.cons "lib" (DirTree.node [] DirEntries.nil) DirEntries.nil))
        [("other", DirTree.node [] DirEntries.nil)]
      = Except.ok (MergeState.mk (DirTree.node [] DirEntries.nil)
          ([("other", DirTree.node [] DirEntries.nil)]
            ++ (DirEntries.cons "lib" (DirTree.node [] DirEntries.nil)
                DirEntries.nil).toList)) :=
  merge_moves_only_top_level []
    (DirEntries.cons "lib" (DirTree.node [] DirEntries.nil) DirEntries.nil)
    [("other", DirTree.node [] DirEntries.nil)] (by decide) (by decide)
